import Mathlib

/-! Shallow embedding of the risk-and-loss-prevention dashboard KPI engine
(src/kpis.py) and rules engine (src/rules.py).  Floating-point values are
modelled as rationals; a pandas NaN outcome (mean of an empty column, missing
left-merge partner) is modelled with Option.  Dates, site identifiers and
loss-reason categories are encoded as naturals, order-isomorphic to the source
values for every ordering the code relies on.  pandas groupby enumerates group
keys in ascending order with each group keeping the original row order; this
is embedded as sorted deduplicated keys plus a stable filter per key. -/

namespace Dashboard

/-- Round-half-to-even on rationals, the rounding used by Python round and
numpy / pandas round. -/
def roundHalfEven (x : ℚ) : ℤ :=
  if x - (⌊x⌋ : ℚ) < 1/2 then ⌊x⌋
  else if 1/2 < x - (⌊x⌋ : ℚ) then ⌊x⌋ + 1
  else if ⌊x⌋ % 2 = 0 then ⌊x⌋ else ⌊x⌋ + 1

/-- Embedding of round(x, p) in Python and Series.round(p) in pandas. -/
def roundTo (p : ℕ) (x : ℚ) : ℚ := (roundHalfEven (x * 10 ^ p) : ℚ) / 10 ^ p

/-- One row of the daily fact table (columns of data/raw/daily_site_resource.csv
after load_daily_fact type coercion). -/
structure FactRow where
  date : ℕ
  site_id : ℕ
  planned_units : ℤ
  actual_units : ℤ
  usable_units : ℤ
  disposed_units : ℤ
  unit_cost : ℚ
  loss_reason : ℕ
  staffing_shortfall_flag : ℤ
  supplier_delay_flag : ℤ
  temp_excursion_flag : ℤ
deriving DecidableEq, Repr

/-- The integrity check of load_daily_fact (kpis.py lines 54-57): the load
fails unless usable_units + disposed_units == actual_units on every row.  No
sign constraint is imposed by the loader. -/
def integrityOk (df : List FactRow) : Bool :=
  df.all (fun r => decide (r.usable_units + r.disposed_units = r.actual_units))

/-- A fact row extended by the derived metrics of add_derived_metrics. -/
structure DerivedRow extends FactRow where
  utilization_rate : ℚ
  loss_rate : ℚ
  cost_leakage : ℚ
  plan_variance_units : ℤ
  any_shock_flag : ℤ
deriving DecidableEq, Repr

/-- Row part of add_derived_metrics: ratios guarded with where(actual_units > 0,
0.0), cost_leakage = disposed_units * unit_cost, plan variance, OR of the three
shock flags. -/
def deriveRow (r : FactRow) : DerivedRow :=
  { toFactRow := r
    utilization_rate := if 0 < r.actual_units then (r.usable_units : ℚ) / (r.actual_units : ℚ) else 0
    loss_rate := if 0 < r.actual_units then (r.disposed_units : ℚ) / (r.actual_units : ℚ) else 0
    cost_leakage := (r.disposed_units : ℚ) * r.unit_cost
    plan_variance_units := r.actual_units - r.planned_units
    any_shock_flag :=
      if r.staffing_shortfall_flag = 1 ∨ r.supplier_delay_flag = 1 ∨ r.temp_excursion_flag = 1
      then 1 else 0 }

def addDerivedMetrics (df : List FactRow) : List DerivedRow := df.map deriveRow

/-- Arithmetic mean of a nonempty column (pandas mean restricted to nonempty
groups, which is the only way groupby applies it). -/
def meanQ (xs : List ℚ) : ℚ := xs.sum / xs.length

/-- pandas mean of a whole column: NaN on an empty frame, modelled as none. -/
def meanQ? (xs : List ℚ) : Option ℚ := if xs.isEmpty then none else some (meanQ xs)

/-- Group keys of a pandas groupby over a single ℕ-encoded column: the
distinct keys in ascending order. -/
def natKeys (key : α → ℕ) (l : List α) : List ℕ :=
  List.insertionSort (fun a b => a ≤ b) (l.map key).dedup

/-- Lexicographic order on pair keys, as pandas sorts a two-column group key. -/
def pairLe (a b : ℕ × ℕ) : Prop := a.1 < b.1 ∨ (a.1 = b.1 ∧ a.2 ≤ b.2)

instance : DecidableRel pairLe := fun a b => by
  unfold pairLe; infer_instance

/-- Group keys of a pandas groupby over two ℕ-encoded columns. -/
def pairKeys (key : α → ℕ × ℕ) (l : List α) : List (ℕ × ℕ) :=
  List.insertionSort pairLe (l.map key).dedup

/-- The single-row overall rollup of compute_kpis.  The three mean columns are
Option-valued because pandas mean of an empty frame is NaN. -/
structure OverallRow where
  planned_units : ℤ
  actual_units : ℤ
  usable_units : ℤ
  disposed_units : ℤ
  cost_leakage : ℚ
  avg_unit_cost : Option ℚ
  avg_loss_rate : Option ℚ
  avg_utilization_rate : Option ℚ
  shock_days : ℤ
deriving DecidableEq, Repr

def mkOverall (d : List DerivedRow) : OverallRow :=
  { planned_units := (d.map (·.planned_units)).sum
    actual_units := (d.map (·.actual_units)).sum
    usable_units := (d.map (·.usable_units)).sum
    disposed_units := (d.map (·.disposed_units)).sum
    cost_leakage := roundTo 2 (d.map (·.cost_leakage)).sum
    avg_unit_cost := (meanQ? (d.map (·.unit_cost))).map (roundTo 2)
    avg_loss_rate := (meanQ? (d.map (·.loss_rate))).map (roundTo 4)
    avg_utilization_rate := (meanQ? (d.map (·.utilization_rate))).map (roundTo 4)
    shock_days := (d.map (·.any_shock_flag)).sum }

/-- One row of the by_site rollup, after the in-place rounding of
compute_kpis. -/
structure SiteRow where
  site_id : ℕ
  planned_units : ℤ
  actual_units : ℤ
  usable_units : ℤ
  disposed_units : ℤ
  cost_leakage : ℚ
  avg_unit_cost : ℚ
  avg_loss_rate : ℚ
  avg_utilization_rate : ℚ
  shock_days : ℤ
  loss_rate_weighted : ℚ
  utilization_rate_weighted : ℚ
deriving DecidableEq, Repr

def mkSiteRow (d : List DerivedRow) (sid : ℕ) : SiteRow :=
  let g := d.filter (fun r => r.site_id = sid)
  let actual := (g.map (·.actual_units)).sum
  let usable := (g.map (·.usable_units)).sum
  let disposed := (g.map (·.disposed_units)).sum
  { site_id := sid
    planned_units := (g.map (·.planned_units)).sum
    actual_units := actual
    usable_units := usable
    disposed_units := disposed
    cost_leakage := roundTo 2 (g.map (·.cost_leakage)).sum
    avg_unit_cost := roundTo 2 (meanQ (g.map (·.unit_cost)))
    avg_loss_rate := roundTo 4 (meanQ (g.map (·.loss_rate)))
    avg_utilization_rate := roundTo 4 (meanQ (g.map (·.utilization_rate)))
    shock_days := (g.map (·.any_shock_flag)).sum
    loss_rate_weighted := roundTo 4 (if 0 < actual then (disposed : ℚ) / (actual : ℚ) else 0)
    utilization_rate_weighted := roundTo 4 (if 0 < actual then (usable : ℚ) / (actual : ℚ) else 0) }

/-- Final by_site ordering: sort_values by cost_leakage descending. -/
def siteCostDesc (a b : SiteRow) : Prop := b.cost_leakage ≤ a.cost_leakage

instance : DecidableRel siteCostDesc := fun a b => by
  unfold siteCostDesc; infer_instance

def mkBySite (d : List DerivedRow) : List SiteRow :=
  List.insertionSort siteCostDesc ((natKeys (fun r => r.site_id) d).map (mkSiteRow d))

/-- One row of the by_site_day table, with its rounded ratio columns. -/
structure SiteDayRow where
  date : ℕ
  site_id : ℕ
  planned_units : ℤ
  actual_units : ℤ
  usable_units : ℤ
  disposed_units : ℤ
  cost_leakage : ℚ
  any_shock_flag : ℤ
  loss_rate : ℚ
  utilization_rate : ℚ
deriving DecidableEq, Repr

def mkSiteDayRow (d : List DerivedRow) (k : ℕ × ℕ) : SiteDayRow :=
  let g := d.filter (fun r => r.date = k.1 ∧ r.site_id = k.2)
  let actual := (g.map (·.actual_units)).sum
  let usable := (g.map (·.usable_units)).sum
  let disposed := (g.map (·.disposed_units)).sum
  { date := k.1
    site_id := k.2
    planned_units := (g.map (·.planned_units)).sum
    actual_units := actual
    usable_units := usable
    disposed_units := disposed
    cost_leakage := roundTo 2 (g.map (·.cost_leakage)).sum
    any_shock_flag := ((g.map (·.any_shock_flag)).max?).getD 0
    loss_rate := roundTo 4 (if 0 < actual then (disposed : ℚ) / (actual : ℚ) else 0)
    utilization_rate := roundTo 4 (if 0 < actual then (usable : ℚ) / (actual : ℚ) else 0) }

/-- Final by_site_day ordering: sort_values by site_id then date, ascending. -/
def siteDayOrd (a b : SiteDayRow) : Prop :=
  a.site_id < b.site_id ∨ (a.site_id = b.site_id ∧ a.date ≤ b.date)

instance : DecidableRel siteDayOrd := fun a b => by
  unfold siteDayOrd; infer_instance

def mkBySiteDay (d : List DerivedRow) : List SiteDayRow :=
  List.insertionSort siteDayOrd
    ((pairKeys (fun r => (r.date, r.site_id)) d).map (mkSiteDayRow d))

/-- One row of loss_mix_by_site after the merge with per-site totals. -/
structure MixRow where
  site_id : ℕ
  loss_reason : ℕ
  disposed_units : ℤ
  total_disposed : ℤ
  disposed_share : ℚ
deriving DecidableEq, Repr

/-- The (site_id, loss_reason) disposed-unit sums, one triple per group key. -/
def mkMixBase (d : List DerivedRow) : List (ℕ × ℕ × ℤ) :=
  (pairKeys (fun r => (r.site_id, r.loss_reason)) d).map
    (fun k => (k.1, k.2,
      ((d.filter (fun r => r.site_id = k.1 ∧ r.loss_reason = k.2)).map (·.disposed_units)).sum))

/-- Per-site totals, the second groupby of the loss-mix pass: computed from the
(site, reason) sums themselves. -/
def mixTotals (mix : List (ℕ × ℕ × ℤ)) : List (ℕ × ℤ) :=
  (natKeys (fun m => m.1) mix).map
    (fun s => (s, ((mix.filter (fun x => x.1 = s)).map (·.2.2)).sum))

/-- Final loss_mix ordering: ascending site_id, descending disposed_share. -/
def mixOrd (a b : MixRow) : Prop :=
  a.site_id < b.site_id ∨ (a.site_id = b.site_id ∧ b.disposed_share ≤ a.disposed_share)

instance : DecidableRel mixOrd := fun a b => by
  unfold mixOrd; infer_instance

/-- The left merge of one (site, reason, disposed) triple with the per-site
totals, and the share column guarded with where(total_disposed > 0, 0.0) then
rounded.  The left merge can never miss because the totals are grouped from
the mix itself, so a miss (NaN total in pandas, share forced to 0 by the
guard) is embedded as a lookup default of 0. -/
def mergeMixRow (totals : List (ℕ × ℤ)) (m : ℕ × ℕ × ℤ) : MixRow :=
  let t := ((totals.find? (fun p => p.1 = m.1)).map (·.2)).getD 0
  { site_id := m.1
    loss_reason := m.2.1
    disposed_units := m.2.2
    total_disposed := t
    disposed_share := roundTo 4 (if 0 < t then (m.2.2 : ℚ) / (t : ℚ) else 0) }

/-- Loss mix by site: per-(site, reason) sums merged with per-site totals,
sorted ascending by site and descending by share. -/
def mkLossMix (d : List DerivedRow) : List MixRow :=
  List.insertionSort mixOrd ((mkMixBase d).map (mergeMixRow (mixTotals (mkMixBase d))))

/-- The four tables returned by compute_kpis. -/
structure KpiOutputs where
  overall : OverallRow
  by_site : List SiteRow
  by_site_day : List SiteDayRow
  loss_mix_by_site : List MixRow
deriving DecidableEq, Repr

def computeKpis (df : List FactRow) : KpiOutputs :=
  let d := addDerivedMetrics df
  { overall := mkOverall d
    by_site := mkBySite d
    by_site_day := mkBySiteDay d
    loss_mix_by_site := mkLossMix d }

/-- RuleConfig of rules.py with its default thresholds. -/
structure RuleConfig where
  normal_max_loss : ℚ := 5/100
  watch_max_loss : ℚ := 10/100
  sustained_watch_loss : ℚ := 8/100
  sustained_days : ℕ := 5
  dominant_driver_share : ℚ := 60/100
  trend_days : ℕ := 3
deriving DecidableEq, Repr

def defaultCfg : RuleConfig := {}

/-- The three-valued site status of rules.py. -/
inductive Status where
  | normal
  | watch
  | interventionRequired
deriving DecidableEq, Repr

/-- The literal strings the code stores in the status column. -/
def statusLabel : Status → String
  | .normal => "Normal"
  | .watch => "Watch"
  | .interventionRequired => "Intervention Required"

/-- ACTION_MAP of rules.py.  Loss-reason categories are encoded as naturals:
0 = overproduction, 1 = spoilage, 2 = damage, 3 = timing_mismatch, any other
natural is an unmapped reason string. -/
def actionMap : ℕ → Option String
  | 0 => some "Adjust ordering cadence / tighten plan vs actual variance; review reorder points."
  | 1 => some "Strengthen process controls (handling/storage); investigate temperature excursions and SOP adherence."
  | 2 => some "Improve handling/packaging; target training and standard work to reduce breakage."
  | 3 => some "Fix scheduling + staffing alignment; coordinate inbound timing and process capacity."
  | _ => none

/-- The recommend closure of classify_sites: none is the NaN dominant reason
of a site absent from the loss mix. -/
def recommend : Option ℕ → String
  | none => "Review site performance; insufficient driver data."
  | some rsn => (actionMap rsn).getD "Review site performance; define corrective action."

/-- The last k values of the series are strictly increasing (the function
named with a leading underscore for rising streaks in rules.py). -/
def risingStreak (values : List ℚ) (k : ℕ) : Bool :=
  if values.length < k then false
  else
    let tl := values.drop (values.length - k)
    (tl.zip tl.tail).all (fun p => decide (p.1 < p.2))

/-- Date-ascending order used by sort_values inside the per-site closures. -/
def dateAsc (a b : SiteDayRow) : Prop := a.date ≤ b.date

instance : DecidableRel dateAsc := fun a b => by
  unfold dateAsc; infer_instance

/-- The daily rows of one site, sorted ascending by date. -/
def siteDays (bsd : List SiteDayRow) (sid : ℕ) : List SiteDayRow :=
  List.insertionSort dateAsc (bsd.filter (fun r => r.site_id = sid))

/-- sustained_flag of classify_sites: tail(sustained_days) of the date-sorted
site history; false when shorter than the window, else all loss_rate at or
above sustained_watch_loss. -/
def sustainedFlag (bsd : List SiteDayRow) (cfg : RuleConfig) (sid : ℕ) : Bool :=
  let d := siteDays bsd sid
  let tl := d.drop (d.length - cfg.sustained_days)
  if tl.length < cfg.sustained_days then false
  else tl.all (fun r => decide (cfg.sustained_watch_loss ≤ r.loss_rate))

/-- rising_cost_flag of classify_sites. -/
def risingCostFlag (bsd : List SiteDayRow) (cfg : RuleConfig) (sid : ℕ) : Bool :=
  risingStreak ((siteDays bsd sid).map (·.cost_leakage)) cfg.trend_days

/-- The status decision of classify_sites (rules.py lines 105-110), as the
code writes it: if / elif / else on the row values. -/
def statusOf (cfg : RuleConfig) (lr dom_share : ℚ) (sustained rising : Bool) : Status :=
  if cfg.watch_max_loss < lr ∨ sustained = true ∨
      (cfg.dominant_driver_share ≤ dom_share ∧ cfg.normal_max_loss < lr) then
    .interventionRequired
  else if cfg.normal_max_loss < lr ∨ rising = true then .watch
  else .normal

/-- The dominant-driver table: loss mix sorted by (site ascending, share
descending), then the first row of each site group. -/
def domOf (mix : List MixRow) : List (ℕ × ℕ × ℚ) :=
  let sorted := List.insertionSort mixOrd mix
  (natKeys (fun r => r.site_id) sorted).filterMap
    (fun s => ((sorted.filter (fun r => r.site_id = s)).head?).map
      (fun r => (s, r.loss_reason, r.disposed_share)))

/-- The per-site working row of classify_sites before output formatting: the
merged dominant-driver columns, the two flag columns as the 0/1 integers the
code stores, and the assigned status. -/
structure SiteRecord where
  site_id : ℕ
  status : Status
  loss_rate_weighted : ℚ
  cost_leakage : ℚ
  shock_days : ℤ
  dominant_loss_reason : Option ℕ
  dominant_loss_share : Option ℚ
  sustained_high_loss_flag : ℤ
  rising_cost_leakage_flag : ℤ
  recommended_action : String
deriving DecidableEq, Repr

def mkSiteRecord (bsd : List SiteDayRow) (dom : List (ℕ × ℕ × ℚ)) (cfg : RuleConfig)
    (b : SiteRow) : SiteRecord :=
  let d := dom.find? (fun t => t.1 = b.site_id)
  let lr := b.loss_rate_weighted
  let dom_share := (d.map (fun t => t.2.2)).getD 0
  let sus := sustainedFlag bsd cfg b.site_id
  let ris := risingCostFlag bsd cfg b.site_id
  { site_id := b.site_id
    status := statusOf cfg lr dom_share sus ris
    loss_rate_weighted := lr
    cost_leakage := b.cost_leakage
    shock_days := b.shock_days
    dominant_loss_reason := d.map (fun t => t.2.1)
    dominant_loss_share := d.map (fun t => t.2.2)
    sustained_high_loss_flag := if sus then 1 else 0
    rising_cost_leakage_flag := if ris then 1 else 0
    recommended_action := recommend (d.map (fun t => t.2.1)) }

/-- classify_sites up to (not including) output formatting and the final
sort: one record per by_site row, in by_site order. -/
def classifyRecords (by_site : List SiteRow) (bsd : List SiteDayRow)
    (mix : List MixRow) (cfg : RuleConfig) : List SiteRecord :=
  by_site.map (mkSiteRecord bsd (domOf mix) cfg)

/-- One row of the classify_sites output table, after the final formatting
(fillna + rounding of the presentation columns). -/
structure StatusRow where
  site_id : ℕ
  status : Status
  loss_rate_weighted : ℚ
  cost_leakage : ℚ
  shock_days : ℤ
  dominant_loss_reason : Option ℕ
  dominant_loss_share : ℚ
  sustained_high_loss_flag : ℤ
  rising_cost_leakage_flag : ℤ
  recommended_action : String
deriving DecidableEq, Repr

def formatRecord (rec : SiteRecord) : StatusRow :=
  { site_id := rec.site_id
    status := rec.status
    loss_rate_weighted := roundTo 4 rec.loss_rate_weighted
    cost_leakage := roundTo 2 rec.cost_leakage
    shock_days := rec.shock_days
    dominant_loss_reason := rec.dominant_loss_reason
    dominant_loss_share := roundTo 4 ((rec.dominant_loss_share).getD 0)
    sustained_high_loss_flag := rec.sustained_high_loss_flag
    rising_cost_leakage_flag := rec.rising_cost_leakage_flag
    recommended_action := rec.recommended_action }

/-- The final sort of classify_sites: sort_values on the status column (a
plain string, hence alphabetical order on the labels) ascending, then
cost_leakage descending. -/
def statusRowOrd (a b : StatusRow) : Prop :=
  statusLabel a.status < statusLabel b.status ∨
    (statusLabel a.status = statusLabel b.status ∧ b.cost_leakage ≤ a.cost_leakage)

instance : DecidableRel statusRowOrd := fun a b => by
  unfold statusRowOrd; infer_instance

def classifySites (by_site : List SiteRow) (bsd : List SiteDayRow)
    (mix : List MixRow) (cfg : RuleConfig) : List StatusRow :=
  List.insertionSort statusRowOrd ((classifyRecords by_site bsd mix cfg).map formatRecord)

/-- The full pipeline of main.py and app.py: load (validated facts), compute
KPIs, classify. -/
def pipelineStatus (facts : List FactRow) (cfg : RuleConfig) : List StatusRow :=
  let k := computeKpis facts
  classifySites k.by_site k.by_site_day k.loss_mix_by_site cfg

/-! Spec-side definitions, written from the wording of the specification for
comparison with the embedded code. -/

/-- The status decision table as the spec words it, first match wins:
Intervention Required if weighted loss rate > watch_max_loss, or the
sustained-high-loss flag is set, or (dominant driver share at least
dominant_driver_share and weighted loss rate > normal_max_loss); else Watch if
weighted loss rate > normal_max_loss or the rising-cost-leakage flag is set;
else Normal. -/
def statusSpec (cfg : RuleConfig) (lr dom_share : ℚ) (sustained rising : Bool) : Status :=
  if lr > cfg.watch_max_loss ∨ sustained = true ∨
      (dom_share ≥ cfg.dominant_driver_share ∧ lr > cfg.normal_max_loss) then
    .interventionRequired
  else if lr > cfg.normal_max_loss ∨ rising = true then .watch
  else .normal

/-- The sustained-high-loss condition as the spec words it: the site has at
least sustained_days rows in by_site_day, and after sorting that site ascending
by date the last sustained_days rows all have loss_rate at or above
sustained_watch_loss. -/
def sustainedSpec (bsd : List SiteDayRow) (cfg : RuleConfig) (sid : ℕ) : Prop :=
  cfg.sustained_days ≤ (bsd.filter (fun r => r.site_id = sid)).length ∧
    ∀ r ∈ (siteDays bsd sid).drop ((siteDays bsd sid).length - cfg.sustained_days),
      cfg.sustained_watch_loss ≤ r.loss_rate

/-- Severity rank of a status: Normal < Watch < Intervention Required. -/
def severity : Status → ℕ
  | .normal => 0
  | .watch => 1
  | .interventionRequired => 2

/-! Concrete example inputs used in counterexamples and witnesses. -/

/-- The single-row fact set of the spec scenario: planned=100, actual=100,
usable=90, disposed=10, unit_cost=2.0, loss_reason = spoilage (code 1). -/
def oneSiteFacts : List FactRow :=
  [{ date := 0, site_id := 0, planned_units := 100, actual_units := 100, usable_units := 90,
     disposed_units := 10, unit_cost := 2, loss_reason := 1,
     staffing_shortfall_flag := 0, supplier_delay_flag := 0, temp_excursion_flag := 0 }]

/-- Two days of one site with weighted loss rate 10001/100000 = 0.10001,
strictly above watch_max_loss = 0.10, rounding to 0.1000 at 4 decimals; the
disposed units are split over two reasons so no driver share reaches 0.60. -/
def roundingFacts : List FactRow :=
  [{ date := 0, site_id := 0, planned_units := 50000, actual_units := 50000, usable_units := 45000,
     disposed_units := 5000, unit_cost := 0, loss_reason := 0,
     staffing_shortfall_flag := 0, supplier_delay_flag := 0, temp_excursion_flag := 0 },
   { date := 1, site_id := 0, planned_units := 50000, actual_units := 50000, usable_units := 44999,
     disposed_units := 5001, unit_cost := 0, loss_reason := 1,
     staffing_shortfall_flag := 0, supplier_delay_flag := 0, temp_excursion_flag := 0 }]

/-- One lossless site and one site far above watch_max_loss. -/
def twoSiteFacts : List FactRow :=
  [{ date := 0, site_id := 0, planned_units := 100, actual_units := 100, usable_units := 100,
     disposed_units := 0, unit_cost := 1, loss_reason := 0,
     staffing_shortfall_flag := 0, supplier_delay_flag := 0, temp_excursion_flag := 0 },
   { date := 0, site_id := 1, planned_units := 100, actual_units := 100, usable_units := 50,
     disposed_units := 50, unit_cost := 1, loss_reason := 1,
     staffing_shortfall_flag := 0, supplier_delay_flag := 0, temp_excursion_flag := 0 }]

/-- Site 0 disposes 3 + 1 units over two reasons; site 1 disposes nothing. -/
def mixFacts : List FactRow :=
  [{ date := 0, site_id := 0, planned_units := 10, actual_units := 10, usable_units := 7,
     disposed_units := 3, unit_cost := 1, loss_reason := 0,
     staffing_shortfall_flag := 0, supplier_delay_flag := 0, temp_excursion_flag := 0 },
   { date := 1, site_id := 0, planned_units := 10, actual_units := 10, usable_units := 9,
     disposed_units := 1, unit_cost := 1, loss_reason := 1,
     staffing_shortfall_flag := 0, supplier_delay_flag := 0, temp_excursion_flag := 0 },
   { date := 0, site_id := 1, planned_units := 10, actual_units := 10, usable_units := 10,
     disposed_units := 0, unit_cost := 1, loss_reason := 2,
     staffing_shortfall_flag := 0, supplier_delay_flag := 0, temp_excursion_flag := 0 }]

/-- A row with strictly negative actual_units that still satisfies the loader
integrity balance usable + disposed = actual. -/
def negRow : FactRow :=
  { date := 0, site_id := 0, planned_units := 0, actual_units := -5, usable_units := -3,
    disposed_units := -2, unit_cost := 1, loss_reason := 0,
    staffing_shortfall_flag := 0, supplier_delay_flag := 0, temp_excursion_flag := 0 }

/-- One by_site_day row of site 0 at loss_rate exactly sustained_watch_loss. -/
def flatDay (d : ℕ) : SiteDayRow :=
  { date := d, site_id := 0, planned_units := 100, actual_units := 100, usable_units := 92,
    disposed_units := 8, cost_leakage := 8, any_shock_flag := 0,
    loss_rate := 8/100, utilization_rate := 92/100 }

/-- Exactly sustained_days = 5 days at loss_rate = sustained_watch_loss. -/
def exDays5 : List SiteDayRow := [flatDay 0, flatDay 1, flatDay 2, flatDay 3, flatDay 4]

/-- Only sustained_days - 1 = 4 such days. -/
def exDays4 : List SiteDayRow := [flatDay 0, flatDay 1, flatDay 2, flatDay 3]

/-- A fact row with zero activity everywhere. -/
def zeroRow : FactRow :=
  { date := 0, site_id := 0, planned_units := 0, actual_units := 0, usable_units := 0,
    disposed_units := 0, unit_cost := 1, loss_reason := 0,
    staffing_shortfall_flag := 0, supplier_delay_flag := 0, temp_excursion_flag := 0 }

/-- The by_site_day row computeKpis produces on [zeroRow]. -/
def zeroDay : SiteDayRow :=
  { date := 0, site_id := 0, planned_units := 0, actual_units := 0, usable_units := 0,
    disposed_units := 0, cost_leakage := 0, any_shock_flag := 0, loss_rate := 0,
    utilization_rate := 0 }

/-- The by_site row computeKpis produces on [negRow]. -/
def negSiteRow : SiteRow :=
  { site_id := 0, planned_units := 0, actual_units := -5, usable_units := -3,
    disposed_units := -2, cost_leakage := -2, avg_unit_cost := 1, avg_loss_rate := 0,
    avg_utilization_rate := 0, shock_days := 0, loss_rate_weighted := 0,
    utilization_rate_weighted := 0 }

/-- The by_site_day row computeKpis produces on [negRow]. -/
def negDayRow : SiteDayRow :=
  { date := 0, site_id := 0, planned_units := 0, actual_units := -5, usable_units := -3,
    disposed_units := -2, cost_leakage := -2, any_shock_flag := 0, loss_rate := 0,
    utilization_rate := 0 }

/-- The by_site row computeKpis produces on roundingFacts. -/
def roundingSiteRow : SiteRow :=
  { site_id := 0, planned_units := 100000, actual_units := 100000, usable_units := 89999,
    disposed_units := 10001, cost_leakage := 0, avg_unit_cost := 0, avg_loss_rate := 1/10,
    avg_utilization_rate := 9/10, shock_days := 0, loss_rate_weighted := 1/10,
    utilization_rate_weighted := 9/10 }

/-- The classify record the pipeline produces on oneSiteFacts. -/
def oneSiteRec : SiteRecord :=
  { site_id := 0, status := .interventionRequired, loss_rate_weighted := 1/10,
    cost_leakage := 20, shock_days := 0, dominant_loss_reason := some 1,
    dominant_loss_share := some 1, sustained_high_loss_flag := 0,
    rising_cost_leakage_flag := 0,
    recommended_action := "Strengthen process controls (handling/storage); investigate temperature excursions and SOP adherence." }

instance : IsTotal StatusRow statusRowOrd :=
  ⟨fun a b => by
    unfold statusRowOrd
    rcases lt_trichotomy (statusLabel a.status) (statusLabel b.status) with h | h | h
    · exact Or.inl (Or.inl h)
    · rcases le_total b.cost_leakage a.cost_leakage with hc | hc
      · exact Or.inl (Or.inr ⟨h, hc⟩)
      · exact Or.inr (Or.inr ⟨h.symm, hc⟩)
    · exact Or.inr (Or.inl h)⟩

instance : IsTrans StatusRow statusRowOrd :=
  ⟨fun a b c hab hbc => by
    unfold statusRowOrd at hab hbc ⊢
    rcases hab with h1 | ⟨h1, hc1⟩
    · rcases hbc with h2 | ⟨h2, _⟩
      · exact Or.inl (h1.trans h2)
      · exact Or.inl (lt_of_lt_of_le h1 (le_of_eq h2))
    · rcases hbc with h2 | ⟨h2, hc2⟩
      · exact Or.inl (lt_of_le_of_lt (le_of_eq h1) h2)
      · exact Or.inr ⟨h1.trans h2, hc2.trans hc1⟩⟩

/-! Helper lemmas. -/

theorem roundHalfEven_close (x : ℚ) : |(roundHalfEven x : ℚ) - x| ≤ 1/2 := by
  have h1 : (⌊x⌋ : ℚ) ≤ x := Int.floor_le x
  have h2 : x < ⌊x⌋ + 1 := Int.lt_floor_add_one x
  unfold roundHalfEven
  split_ifs with hlt hgt hev
  · rw [abs_sub_comm, abs_of_nonneg (by linarith)]
    linarith
  · push_cast
    rw [abs_of_nonneg (by linarith)]
    linarith
  · have heq : x - (⌊x⌋ : ℚ) = 1/2 := le_antisymm (not_lt.1 hgt) (not_lt.1 hlt)
    rw [abs_sub_comm, abs_of_nonneg (by linarith)]
    linarith
  · have heq : x - (⌊x⌋ : ℚ) = 1/2 := le_antisymm (not_lt.1 hgt) (not_lt.1 hlt)
    push_cast
    rw [abs_of_nonneg (by linarith)]
    linarith

theorem roundHalfEven_intCast (n : ℤ) : roundHalfEven (n : ℚ) = n := by
  unfold roundHalfEven
  rw [Int.floor_intCast]
  norm_num

theorem roundTo_close (p : ℕ) (x : ℚ) : |roundTo p x - x| ≤ 1 / (2 * 10 ^ p) := by
  have h10 : (0 : ℚ) < 10 ^ p := by positivity
  have hkey : roundTo p x - x = ((roundHalfEven (x * 10 ^ p) : ℚ) - x * 10 ^ p) / 10 ^ p := by
    field_simp [roundTo]
    ring
  rw [hkey, abs_div, abs_of_pos h10]
  rw [div_le_div_iff₀ h10 (by positivity)]
  have h := roundHalfEven_close (x * 10 ^ p)
  calc |(roundHalfEven (x * 10 ^ p) : ℚ) - x * 10 ^ p| * (2 * 10 ^ p)
      ≤ (1/2) * (2 * 10 ^ p) := by
        apply mul_le_mul_of_nonneg_right h (by positivity)
    _ = 1 * 10 ^ p := by ring

theorem roundTo_idem (p : ℕ) (x : ℚ) : roundTo p (roundTo p x) = roundTo p x := by
  have h10 : (10 : ℚ) ^ p ≠ 0 := by positivity
  unfold roundTo
  rw [div_mul_cancel₀ _ h10, roundHalfEven_intCast]

theorem roundTo_zero (p : ℕ) : roundTo p 0 = 0 := by
  have h : roundHalfEven (0 : ℚ) = 0 := by
    simpa using roundHalfEven_intCast 0
  unfold roundTo
  rw [zero_mul, h]
  norm_num

/-- The status decision the code writes and the one the spec words coincide. -/
theorem statusOf_eq_statusSpec (cfg : RuleConfig) (lr dom_share : ℚ) (sustained rising : Bool) :
    statusOf cfg lr dom_share sustained rising = statusSpec cfg lr dom_share sustained rising := rfl

/-- Unfolding classifyRecords membership: every record is the image of a
by_site row. -/
theorem mem_classifyRecords {by_site : List SiteRow} {bsd : List SiteDayRow}
    {mix : List MixRow} {cfg : RuleConfig} {rec : SiteRecord}
    (h : rec ∈ classifyRecords by_site bsd mix cfg) :
    ∃ b ∈ by_site, rec = mkSiteRecord bsd (domOf mix) cfg b := by
  rcases List.mem_map.1 h with ⟨b, hb, hrec⟩
  exact ⟨b, hb, hrec.symm⟩

/-- Every classify record carries a status computed by the decision function
from the values stored in the record itself. -/
theorem classifyRecords_status {by_site : List SiteRow} {bsd : List SiteDayRow}
    {mix : List MixRow} {cfg : RuleConfig} {rec : SiteRecord}
    (h : rec ∈ classifyRecords by_site bsd mix cfg) :
    rec.status = statusOf cfg rec.loss_rate_weighted ((rec.dominant_loss_share).getD 0)
      (rec.sustained_high_loss_flag == 1) (rec.rising_cost_leakage_flag == 1) := by
  rcases mem_classifyRecords h with ⟨b, _, rfl⟩
  cases hsus : sustainedFlag bsd cfg b.site_id <;>
    cases hris : risingCostFlag bsd cfg b.site_id <;>
      simp [mkSiteRecord, hsus, hris]

/-- The sustained flag agrees with its spec-side reading on every input. -/
theorem sustainedFlag_iff (bsd : List SiteDayRow) (cfg : RuleConfig) (sid : ℕ) :
    sustainedFlag bsd cfg sid = true ↔ sustainedSpec bsd cfg sid := by
  have hlen : (siteDays bsd sid).length = (bsd.filter (fun r => r.site_id = sid)).length :=
    (List.perm_insertionSort _ _).length_eq
  have hdlen : ((siteDays bsd sid).drop ((siteDays bsd sid).length - cfg.sustained_days)).length
      = (siteDays bsd sid).length - ((siteDays bsd sid).length - cfg.sustained_days) :=
    List.length_drop _ _
  simp only [sustainedFlag, sustainedSpec]
  by_cases hn : cfg.sustained_days ≤ (siteDays bsd sid).length
  · rw [if_neg (by omega)]
    rw [List.all_eq_true]
    constructor
    · intro h
      refine ⟨by omega, fun r hr => ?_⟩
      simpa using h r hr
    · intro h r hr
      simpa using h.2 r hr
  · rw [if_pos (by omega)]
    constructor
    · intro h
      simp at h
    · intro h
      have := h.1
      omega

/-! Claim theorems. -/

/-- C1: for every site row produced by classify_sites, for any configuration,
the status is decided by the precedence of the spec, first match wins:
Intervention Required if loss_rate_weighted > watch_max_loss, or the sustained
flag is set, or (dominant_loss_share at least dominant_driver_share and
loss_rate_weighted > normal_max_loss); otherwise Watch if loss_rate_weighted >
normal_max_loss or the rising flag is set; otherwise Normal. -/
theorem c1_status_precedence (by_site : List SiteRow) (bsd : List SiteDayRow)
    (mix : List MixRow) (cfg : RuleConfig) (rec : SiteRecord)
    (h : rec ∈ classifyRecords by_site bsd mix cfg) :
    rec.status = statusSpec cfg rec.loss_rate_weighted ((rec.dominant_loss_share).getD 0)
      (rec.sustained_high_loss_flag == 1) (rec.rising_cost_leakage_flag == 1) := by
  rw [classifyRecords_status h, statusOf_eq_statusSpec]

theorem c1_status_precedence_witness :
    oneSiteRec ∈ classifyRecords (computeKpis oneSiteFacts).by_site
      (computeKpis oneSiteFacts).by_site_day (computeKpis oneSiteFacts).loss_mix_by_site
      defaultCfg ∧
    oneSiteRec.status = statusSpec defaultCfg oneSiteRec.loss_rate_weighted
      ((oneSiteRec.dominant_loss_share).getD 0) (oneSiteRec.sustained_high_loss_flag == 1)
      (oneSiteRec.rising_cost_leakage_flag == 1) := by
  have h : classifyRecords (computeKpis oneSiteFacts).by_site
      (computeKpis oneSiteFacts).by_site_day (computeKpis oneSiteFacts).loss_mix_by_site
      defaultCfg = [oneSiteRec] := by
    norm_num [computeKpis, addDerivedMetrics, deriveRow, mkBySite, mkSiteRow, natKeys, pairKeys,
      pairLe, mkBySiteDay, mkSiteDayRow, mkLossMix, mergeMixRow, mkMixBase, mixTotals, mixOrd, meanQ,
      List.insertionSort, List.orderedInsert, siteCostDesc, siteDayOrd, oneSiteFacts, roundTo,
      roundHalfEven, classifyRecords, mkSiteRecord, domOf, sustainedFlag, risingCostFlag,
      risingStreak, siteDays, dateAsc, statusOf, recommend, actionMap, defaultCfg, oneSiteRec]
  have hmem : oneSiteRec ∈ classifyRecords (computeKpis oneSiteFacts).by_site
      (computeKpis oneSiteFacts).by_site_day (computeKpis oneSiteFacts).loss_mix_by_site
      defaultCfg := by
    rw [h]
    exact List.mem_singleton.2 rfl
  exact ⟨hmem, c1_status_precedence _ _ _ _ _ hmem⟩

/-- C3: the sustained-high-loss flag of a site is set iff the site has at
least sustained_days rows in by_site_day and, sorted ascending by date, the
last sustained_days rows all have loss_rate at or above sustained_watch_loss;
in particular it is set with exactly sustained_days days at exactly the
threshold and clear with only sustained_days - 1 such days. -/
theorem c3_sustained_flag_spec :
    (∀ (bsd : List SiteDayRow) (cfg : RuleConfig) (sid : ℕ),
      sustainedFlag bsd cfg sid = true ↔ sustainedSpec bsd cfg sid) ∧
    sustainedFlag exDays5 defaultCfg 0 = true ∧
    sustainedFlag exDays4 defaultCfg 0 = false :=
  ⟨sustainedFlag_iff,
    by
      norm_num [sustainedFlag, siteDays, defaultCfg, exDays5, flatDay, dateAsc,
        List.insertionSort, List.orderedInsert],
    by
      norm_num [sustainedFlag, siteDays, defaultCfg, exDays4, flatDay, dateAsc,
        List.insertionSort, List.orderedInsert]⟩

/-- C9: the status decision of classify_sites is monotone in the weighted
loss rate: with all flags, the dominant share and the configuration fixed, a
larger loss_rate_weighted never yields a strictly less severe status under
Normal < Watch < Intervention Required. -/
theorem c9_status_monotone (cfg : RuleConfig) (dom_share : ℚ) (sustained rising : Bool)
    (lr lr' : ℚ) (h : lr ≤ lr') :
    severity (statusOf cfg lr dom_share sustained rising) ≤
      severity (statusOf cfg lr' dom_share sustained rising) := by
  have himp1 : (cfg.watch_max_loss < lr ∨ sustained = true ∨
      (cfg.dominant_driver_share ≤ dom_share ∧ cfg.normal_max_loss < lr)) →
      (cfg.watch_max_loss < lr' ∨ sustained = true ∨
      (cfg.dominant_driver_share ≤ dom_share ∧ cfg.normal_max_loss < lr')) := by
    rintro (hc | hc | ⟨hd, hc⟩)
    · exact Or.inl (lt_of_lt_of_le hc h)
    · exact Or.inr (Or.inl hc)
    · exact Or.inr (Or.inr ⟨hd, lt_of_lt_of_le hc h⟩)
  have himp2 : (cfg.normal_max_loss < lr ∨ rising = true) →
      (cfg.normal_max_loss < lr' ∨ rising = true) := by
    rintro (hc | hc)
    · exact Or.inl (lt_of_lt_of_le hc h)
    · exact Or.inr hc
  unfold statusOf
  by_cases hA : cfg.watch_max_loss < lr ∨ sustained = true ∨
      (cfg.dominant_driver_share ≤ dom_share ∧ cfg.normal_max_loss < lr)
  · rw [if_pos hA, if_pos (himp1 hA)]
  · rw [if_neg hA]
    by_cases hB : cfg.watch_max_loss < lr' ∨ sustained = true ∨
        (cfg.dominant_driver_share ≤ dom_share ∧ cfg.normal_max_loss < lr')
    · rw [if_pos hB]
      split_ifs <;> decide
    · rw [if_neg hB]
      by_cases hC : cfg.normal_max_loss < lr ∨ rising = true
      · rw [if_pos hC, if_pos (himp2 hC)]
      · rw [if_neg hC]
        split_ifs <;> decide

theorem c9_status_monotone_witness :
    severity (statusOf defaultCfg 0 0 false false) ≤
      severity (statusOf defaultCfg (2/10) 0 false false) :=
  c9_status_monotone defaultCfg 0 false false 0 (2/10) (by norm_num)

/-- Every by_site row is a per-site aggregate of the derived rows. -/
theorem mem_by_site {facts : List FactRow} {b : SiteRow}
    (h : b ∈ (computeKpis facts).by_site) :
    ∃ s, b = mkSiteRow (addDerivedMetrics facts) s := by
  simp only [computeKpis, mkBySite] at h
  rcases List.mem_map.1 ((List.mem_insertionSort _).1 h) with ⟨s, _, hb⟩
  exact ⟨s, hb.symm⟩

/-- Every by_site_day row is a per-(date, site) aggregate of the derived
rows. -/
theorem mem_by_site_day {facts : List FactRow} {sd : SiteDayRow}
    (h : sd ∈ (computeKpis facts).by_site_day) :
    ∃ k, sd = mkSiteDayRow (addDerivedMetrics facts) k := by
  simp only [computeKpis, mkBySiteDay] at h
  rcases List.mem_map.1 ((List.mem_insertionSort _).1 h) with ⟨k, _, hb⟩
  exact ⟨k, hb.symm⟩

/-- C7: for every input row and every (site, date) aggregate with
actual_units = 0, both loss_rate and utilization_rate are exactly 0: the
division is guarded and 0.0 substituted, so no undefined value arises. -/
theorem c7_zero_guard (r : FactRow) (facts : List FactRow) :
    (r.actual_units = 0 → (deriveRow r).loss_rate = 0 ∧ (deriveRow r).utilization_rate = 0) ∧
    ∀ sd ∈ (computeKpis facts).by_site_day, sd.actual_units = 0 →
      sd.loss_rate = 0 ∧ sd.utilization_rate = 0 := by
  constructor
  · intro hz
    constructor <;> simp [deriveRow, hz]
  · intro sd hsd hz
    rcases mem_by_site_day hsd with ⟨k, rfl⟩
    simp only [mkSiteDayRow] at hz ⊢
    rw [hz]
    simp [roundTo_zero]

theorem c7_zero_guard_witness :
    ((deriveRow zeroRow).loss_rate = 0 ∧ (deriveRow zeroRow).utilization_rate = 0) ∧
    (zeroDay.loss_rate = 0 ∧ zeroDay.utilization_rate = 0) := by
  have h1 := (c7_zero_guard zeroRow [zeroRow]).1 rfl
  have h : (computeKpis [zeroRow]).by_site_day = [zeroDay] := by
    norm_num [computeKpis, addDerivedMetrics, deriveRow, mkBySiteDay, mkSiteDayRow, pairKeys,
      pairLe, List.insertionSort, List.orderedInsert, siteDayOrd, zeroRow, zeroDay, roundTo,
      roundHalfEven]
  have hmem : zeroDay ∈ (computeKpis [zeroRow]).by_site_day := by
    rw [h]
    exact List.mem_singleton.2 rfl
  exact ⟨h1, (c7_zero_guard zeroRow [zeroRow]).2 zeroDay hmem rfl⟩

/-- C10: the ratio guards test actual_units > 0, not equality with zero: a
row or aggregate with strictly negative actual_units (which integrityOk
accepts whenever the unit balance holds, as negRow shows) has
utilization_rate, loss_rate, loss_rate_weighted and utilization_rate_weighted
all substituted with 0, exactly as in the zero-activity case. -/
theorem c10_negative_guard (r : FactRow) (facts : List FactRow) :
    integrityOk [negRow] = true ∧
    (r.actual_units < 0 → (deriveRow r).utilization_rate = 0 ∧ (deriveRow r).loss_rate = 0) ∧
    (∀ b ∈ (computeKpis facts).by_site, b.actual_units < 0 →
      b.loss_rate_weighted = 0 ∧ b.utilization_rate_weighted = 0) ∧
    (∀ sd ∈ (computeKpis facts).by_site_day, sd.actual_units < 0 →
      sd.loss_rate = 0 ∧ sd.utilization_rate = 0) := by
  refine ⟨by decide, ?_, ?_, ?_⟩
  · intro hneg
    have h0 : ¬ 0 < r.actual_units := by omega
    constructor <;> simp [deriveRow, h0]
  · intro b hb hneg
    rcases mem_by_site hb with ⟨s, rfl⟩
    simp only [mkSiteRow] at hneg ⊢
    have h0 : ¬ (0 : ℤ) <
        ((List.filter (fun r => decide (r.site_id = s)) (addDerivedMetrics facts)).map
          (fun r => r.actual_units)).sum := by omega
    rw [if_neg h0, if_neg h0]
    simp [roundTo_zero]
  · intro sd hsd hneg
    rcases mem_by_site_day hsd with ⟨k, rfl⟩
    simp only [mkSiteDayRow] at hneg ⊢
    have h0 : ¬ (0 : ℤ) <
        ((List.filter (fun r => decide (r.date = k.1 ∧ r.site_id = k.2))
          (addDerivedMetrics facts)).map (fun r => r.actual_units)).sum := by omega
    rw [if_neg h0, if_neg h0]
    simp [roundTo_zero]

theorem c10_negative_guard_witness :
    integrityOk [negRow] = true ∧
    ((deriveRow negRow).utilization_rate = 0 ∧ (deriveRow negRow).loss_rate = 0) ∧
    (negSiteRow.loss_rate_weighted = 0 ∧ negSiteRow.utilization_rate_weighted = 0) ∧
    (negDayRow.loss_rate = 0 ∧ negDayRow.utilization_rate = 0) := by
  have hbs : (computeKpis [negRow]).by_site = [negSiteRow] := by
    norm_num [computeKpis, addDerivedMetrics, deriveRow, mkBySite, mkSiteRow, natKeys, meanQ,
      List.insertionSort, List.orderedInsert, siteCostDesc, negRow, negSiteRow, roundTo,
      roundHalfEven]
  have hbd : (computeKpis [negRow]).by_site_day = [negDayRow] := by
    norm_num [computeKpis, addDerivedMetrics, deriveRow, mkBySiteDay, mkSiteDayRow, pairKeys,
      pairLe, List.insertionSort, List.orderedInsert, siteDayOrd, negRow, negDayRow, roundTo,
      roundHalfEven]
  have hmb : negSiteRow ∈ (computeKpis [negRow]).by_site := by
    rw [hbs]
    exact List.mem_singleton.2 rfl
  have hmd : negDayRow ∈ (computeKpis [negRow]).by_site_day := by
    rw [hbd]
    exact List.mem_singleton.2 rfl
  refine ⟨(c10_negative_guard negRow [negRow]).1,
    (c10_negative_guard negRow [negRow]).2.1 (by decide),
    (c10_negative_guard negRow [negRow]).2.2.1 negSiteRow hmb (by decide),
    (c10_negative_guard negRow [negRow]).2.2.2 negDayRow hmd (by decide)⟩

/-- C2 counterexample: on roundingFacts the raw weighted loss rate is
10001/100000 = 0.10001, strictly above watch_max_loss = 0.10, and the
decision function on the unrounded values would return Intervention Required;
but compute_kpis hands classify_sites the 4-decimal-rounded column value
1/10, and the pipeline classifies the site as Watch.  Likewise by_site_day
carries the rounded daily loss_rate 1/10 although the raw second-day ratio is
5001/50000.  So the Rules Engine comparisons are not evaluated on unrounded
ratio values. -/
theorem c2_rounding_counterexample :
    (pipelineStatus roundingFacts defaultCfg).map (fun r => r.status) = [Status.watch] ∧
    defaultCfg.watch_max_loss < (10001 : ℚ)/100000 ∧
    statusOf defaultCfg ((10001 : ℚ)/100000) ((5001 : ℚ)/10001) false false =
      Status.interventionRequired ∧
    (computeKpis roundingFacts).by_site.map (fun b => b.loss_rate_weighted) = [1/10] ∧
    ((1 : ℚ)/10 ≠ (10001 : ℚ)/100000) ∧
    (computeKpis roundingFacts).by_site_day.map (fun sd => sd.loss_rate) = [1/10, 1/10] ∧
    ((5001 : ℚ)/50000 ≠ (1 : ℚ)/10) := by
  refine ⟨?_, by norm_num [defaultCfg], ?_, ?_, by norm_num, ?_, by norm_num⟩
  · norm_num [pipelineStatus, computeKpis, addDerivedMetrics, deriveRow, mkBySite, mkSiteRow,
      natKeys, pairKeys, pairLe, mkBySiteDay, mkSiteDayRow, mkLossMix, mergeMixRow, mkMixBase, mixTotals,
      mixOrd, meanQ, List.insertionSort, List.orderedInsert, siteCostDesc, siteDayOrd,
      roundingFacts, roundTo, roundHalfEven, classifySites, classifyRecords, mkSiteRecord,
      domOf, sustainedFlag, risingCostFlag, risingStreak, siteDays, dateAsc, statusOf,
      recommend, actionMap, formatRecord, statusRowOrd, statusLabel, defaultCfg]
  · norm_num [statusOf, defaultCfg]
  · norm_num [computeKpis, addDerivedMetrics, deriveRow, mkBySite, mkSiteRow, natKeys, meanQ,
      List.insertionSort, List.orderedInsert, siteCostDesc, roundingFacts, roundTo,
      roundHalfEven]
  · norm_num [computeKpis, addDerivedMetrics, deriveRow, mkBySiteDay, mkSiteDayRow, pairKeys,
      pairLe, List.insertionSort, List.orderedInsert, siteDayOrd, roundingFacts, roundTo,
      roundHalfEven]

/-- C2 amended: compute_kpis rounds its final output columns, but those
rounded columns are exactly what the Rules Engine consumes: every by_site
loss_rate_weighted and every by_site_day loss_rate handed to classify_sites
is already a 4-decimal value (rounding it again changes nothing), and the
status decision is evaluated on the stored rounded values. -/
theorem c2_rounding_amended (facts : List FactRow) (cfg : RuleConfig) :
    (∀ b ∈ (computeKpis facts).by_site, roundTo 4 b.loss_rate_weighted = b.loss_rate_weighted) ∧
    (∀ sd ∈ (computeKpis facts).by_site_day, roundTo 4 sd.loss_rate = sd.loss_rate) ∧
    (∀ rec ∈ classifyRecords (computeKpis facts).by_site (computeKpis facts).by_site_day
        (computeKpis facts).loss_mix_by_site cfg,
      rec.status = statusOf cfg rec.loss_rate_weighted ((rec.dominant_loss_share).getD 0)
        (rec.sustained_high_loss_flag == 1) (rec.rising_cost_leakage_flag == 1)) := by
  refine ⟨?_, ?_, fun rec h => classifyRecords_status h⟩
  · intro b hb
    rcases mem_by_site hb with ⟨s, rfl⟩
    simp only [mkSiteRow]
    exact roundTo_idem 4 _
  · intro sd hsd
    rcases mem_by_site_day hsd with ⟨k, rfl⟩
    simp only [mkSiteDayRow]
    exact roundTo_idem 4 _

theorem c2_rounding_amended_witness :
    roundTo 4 roundingSiteRow.loss_rate_weighted = roundingSiteRow.loss_rate_weighted := by
  have hbs : (computeKpis roundingFacts).by_site = [roundingSiteRow] := by
    norm_num [computeKpis, addDerivedMetrics, deriveRow, mkBySite, mkSiteRow, natKeys, meanQ,
      List.insertionSort, List.orderedInsert, siteCostDesc, roundingFacts, roundingSiteRow,
      roundTo, roundHalfEven]
  have hmem : roundingSiteRow ∈ (computeKpis roundingFacts).by_site := by
    rw [hbs]
    exact List.mem_singleton.2 rfl
  exact (c2_rounding_amended roundingFacts defaultCfg).1 roundingSiteRow hmem

/-- C4 counterexample: on the scenario fact set the pipeline reports
Intervention Required, not Watch. -/
theorem c4_scenario_counterexample :
    (pipelineStatus oneSiteFacts defaultCfg).map (fun r => r.status) =
      [Status.interventionRequired] ∧
    Status.interventionRequired ≠ Status.watch := by
  refine ⟨?_, by decide⟩
  norm_num [pipelineStatus, computeKpis, addDerivedMetrics, deriveRow, mkBySite, mkSiteRow,
    natKeys, pairKeys, pairLe, mkBySiteDay, mkSiteDayRow, mkLossMix, mergeMixRow, mkMixBase, mixTotals,
    mixOrd, meanQ, List.insertionSort, List.orderedInsert, siteCostDesc, siteDayOrd,
    oneSiteFacts, roundTo, roundHalfEven, classifySites, classifyRecords, mkSiteRecord, domOf,
    sustainedFlag, risingCostFlag, risingStreak, siteDays, dateAsc, statusOf, recommend,
    actionMap, formatRecord, statusRowOrd, statusLabel, defaultCfg]

/-- C4 amended: the scenario aggregates are as claimed (cost_leakage 20.0,
avg_loss_rate 0.10, weighted loss rate 0.10), and 0.10 is indeed not above
watch_max_loss; but the dominant driver covers share 1.0 of the disposed
units, which is at least dominant_driver_share = 0.60 while 0.10 >
normal_max_loss = 0.05, so the dominant-driver disjunct fires and the status
is Intervention Required, not Watch. -/
theorem c4_scenario_amended :
    (computeKpis oneSiteFacts).overall.cost_leakage = 20 ∧
    (computeKpis oneSiteFacts).overall.avg_loss_rate = some (1/10) ∧
    (computeKpis oneSiteFacts).by_site.map (fun b => b.loss_rate_weighted) = [1/10] ∧
    (pipelineStatus oneSiteFacts defaultCfg).map (fun r => (r.status, r.dominant_loss_share)) =
      [(Status.interventionRequired, 1)] ∧
    ¬ defaultCfg.watch_max_loss < (1 : ℚ)/10 ∧
    defaultCfg.dominant_driver_share ≤ (1 : ℚ) ∧ defaultCfg.normal_max_loss < (1 : ℚ)/10 := by
  refine ⟨?_, ?_, ?_, ?_, by norm_num [defaultCfg], by norm_num [defaultCfg],
    by norm_num [defaultCfg]⟩
  · norm_num [computeKpis, addDerivedMetrics, deriveRow, mkOverall, oneSiteFacts, roundTo,
      roundHalfEven]
  · norm_num [computeKpis, addDerivedMetrics, deriveRow, mkOverall, meanQ?, meanQ,
      oneSiteFacts, roundTo, roundHalfEven]
  · norm_num [computeKpis, addDerivedMetrics, deriveRow, mkBySite, mkSiteRow, natKeys, meanQ,
      List.insertionSort, List.orderedInsert, siteCostDesc, oneSiteFacts, roundTo,
      roundHalfEven]
  · norm_num [pipelineStatus, computeKpis, addDerivedMetrics, deriveRow, mkBySite, mkSiteRow,
      natKeys, pairKeys, pairLe, mkBySiteDay, mkSiteDayRow, mkLossMix, mergeMixRow, mkMixBase, mixTotals,
      mixOrd, meanQ, List.insertionSort, List.orderedInsert, siteCostDesc, siteDayOrd,
      oneSiteFacts, roundTo, roundHalfEven, classifySites, classifyRecords, mkSiteRecord,
      domOf, sustainedFlag, risingCostFlag, risingStreak, siteDays, dateAsc, statusOf,
      recommend, actionMap, formatRecord, statusRowOrd, statusLabel, defaultCfg]

/-- C5 counterexample: on twoSiteFacts the classify output lists the
Intervention Required site before the Normal site, so the table is not
ordered ascending by severity rank with Normal first. -/
theorem c5_order_counterexample :
    (pipelineStatus twoSiteFacts defaultCfg).map (fun r => (r.status, r.cost_leakage)) =
      [(Status.interventionRequired, 50), (Status.normal, 0)] ∧
    ¬ severity Status.interventionRequired ≤ severity Status.normal := by
  refine ⟨?_, by decide⟩
  norm_num [pipelineStatus, computeKpis, addDerivedMetrics, deriveRow, mkBySite, mkSiteRow,
    natKeys, pairKeys, pairLe, mkBySiteDay, mkSiteDayRow, mkLossMix, mergeMixRow, mkMixBase, mixTotals,
    mixOrd, meanQ, List.insertionSort, List.orderedInsert, siteCostDesc, siteDayOrd,
    twoSiteFacts, roundTo, roundHalfEven, classifySites, classifyRecords, mkSiteRecord, domOf,
    sustainedFlag, risingCostFlag, risingStreak, siteDays, dateAsc, statusOf, recommend,
    actionMap, formatRecord, statusRowOrd, statusLabel, defaultCfg]
  rw [if_pos (Or.inl (by decide))]
  norm_num

/-- C5 amended: the classify_sites table is ordered ascending by the status
label as a plain string — alphabetically Intervention Required, then Normal,
then Watch — and within equal labels descending by cost_leakage. -/
theorem c5_order_amended (by_site : List SiteRow) (bsd : List SiteDayRow)
    (mix : List MixRow) (cfg : RuleConfig) :
    (classifySites by_site bsd mix cfg).Sorted statusRowOrd :=
  List.sorted_insertionSort _ _

/-- C6 counterexample: on the empty input the three mean fields of the
overall row are NaN (none), not a fixed defined convention value. -/
theorem c6_empty_counterexample :
    (computeKpis []).overall.avg_unit_cost = none ∧
    (computeKpis []).overall.avg_loss_rate = none ∧
    (computeKpis []).overall.avg_utilization_rate = none ∧
    (none : Option ℚ) ≠ some 0 := by
  refine ⟨?_, ?_, ?_, by decide⟩ <;>
    simp [computeKpis, mkOverall, addDerivedMetrics, meanQ?]

theorem natKeys_nodup (key : α → ℕ) (l : List α) : (natKeys key l).Nodup :=
  ((List.perm_insertionSort _ _).nodup_iff).2 ((l.map key).nodup_dedup)

theorem mem_natKeys {key : α → ℕ} {l : List α} {k : ℕ} :
    k ∈ natKeys key l ↔ k ∈ l.map key := by
  unfold natKeys
  rw [List.mem_insertionSort, List.mem_dedup]

theorem list_sum_div_cast (f : α → ℤ) (l : List α) (c : ℚ) :
    (l.map (fun a => ((f a : ℤ) : ℚ) / c)).sum = (((l.map f).sum : ℤ) : ℚ) / c := by
  induction l with
  | nil => simp
  | cons a t ih =>
    simp only [List.map_cons, List.sum_cons, ih]
    push_cast
    ring

/-- Rounding each summand to 4 decimals moves a list sum by at most the list
length times half an ulp. -/
theorem sum_roundTo_close (l : List ℚ) :
    |(l.map (roundTo 4)).sum - l.sum| ≤ (l.length : ℚ) / 20000 := by
  induction l with
  | nil => simp
  | cons a t ih =>
    have h := roundTo_close 4 a
    norm_num at h
    simp only [List.map_cons, List.sum_cons, List.length_cons]
    have key : roundTo 4 a + (t.map (roundTo 4)).sum - (a + t.sum)
        = (roundTo 4 a - a) + ((t.map (roundTo 4)).sum - t.sum) := by ring
    rw [key]
    calc |(roundTo 4 a - a) + ((t.map (roundTo 4)).sum - t.sum)|
        ≤ |roundTo 4 a - a| + |(t.map (roundTo 4)).sum - t.sum| := abs_add _ _
      _ ≤ 1/20000 + (t.length : ℚ)/20000 := add_le_add h ih
      _ = ((t.length : ℚ) + 1)/20000 := by ring
      _ = (((t.length : ℕ) + 1 : ℕ) : ℚ)/20000 := by push_cast; ring

/-- Looking a key up in an association list built by tagging each key with a
value finds that key with its value. -/
theorem find?_keyMap (g : ℕ → ℤ) (ks : List ℕ) (k : ℕ) (hk : k ∈ ks) :
    (ks.map (fun j => (j, g j))).find? (fun pr => pr.1 = k) = some (k, g k) := by
  induction ks with
  | nil => cases hk
  | cons a t ih =>
    simp only [List.map_cons]
    by_cases hak : a = k
    · subst hak
      exact List.find?_cons_of_pos _ (by simp)
    · rw [List.find?_cons_of_neg _ (by simp [hak])]
      refine ih ?_
      rcases List.mem_cons.1 hk with h | h
      · exact absurd h.symm hak
      · exact h

/-- The rows of one site in the final loss mix are, up to the final sort, the
merged (site, reason) sums of that site. -/
theorem mkLossMix_filter_shares (d : List DerivedRow) (s : ℕ) :
    ((mkLossMix d).filter (fun r => r.site_id = s)).Perm
      (((mkMixBase d).filter (fun x => x.1 = s)).map
        (mergeMixRow (mixTotals (mkMixBase d)))) := by
  unfold mkLossMix
  refine ((List.perm_insertionSort mixOrd _).filter _).trans ?_
  rw [List.filter_map]
  have hpred : ((fun r : MixRow => decide (r.site_id = s)) ∘
      mergeMixRow (mixTotals (mkMixBase d))) = (fun m => decide (m.1 = s)) := by
    funext m
    simp [mergeMixRow, Function.comp]
  rw [hpred]

/-- The merged row of any (site, reason) sum carries the per-site total of the
mix and the guarded, rounded share of that total. -/
theorem mergeMixRow_fields (d : List DerivedRow) (m : ℕ × ℕ × ℤ)
    (hm : m ∈ mkMixBase d) :
    (mergeMixRow (mixTotals (mkMixBase d)) m).disposed_share
      = roundTo 4
        (if 0 < (((mkMixBase d).filter (fun x => x.1 = m.1)).map (fun x => x.2.2)).sum
          then (m.2.2 : ℚ) /
            (((((mkMixBase d).filter (fun x => x.1 = m.1)).map (fun x => x.2.2)).sum : ℤ) : ℚ)
          else 0) := by
  have hk : m.1 ∈ natKeys (fun x => x.1) (mkMixBase d) :=
    mem_natKeys.2 (List.mem_map.2 ⟨m, hm, rfl⟩)
  have hfind : (mixTotals (mkMixBase d)).find? (fun pr => pr.1 = m.1)
      = some (m.1, (((mkMixBase d).filter (fun x => x.1 = m.1)).map (fun x => x.2.2)).sum) := by
    unfold mixTotals
    exact find?_keyMap _ _ _ hk
  simp [mergeMixRow, hfind]

/-- C8: in loss_mix_by_site, for every site the shares of that site sum to 1
within rounding tolerance (half an ulp of the 4-decimal rounding per row)
when the site disposes a positive total, and every share is exactly 0 when
the site disposes a zero total. -/
theorem c8_share_sums (facts : List FactRow) (s : ℕ) :
    (0 < (((computeKpis facts).loss_mix_by_site.filter (fun r => r.site_id = s)).map
        (fun r => r.disposed_units)).sum →
      |(((computeKpis facts).loss_mix_by_site.filter (fun r => r.site_id = s)).map
          (fun r => r.disposed_share)).sum - 1| ≤
        (((computeKpis facts).loss_mix_by_site.filter (fun r => r.site_id = s)).length : ℚ)
          / 20000) ∧
    ((((computeKpis facts).loss_mix_by_site.filter (fun r => r.site_id = s)).map
        (fun r => r.disposed_units)).sum = 0 →
      ∀ r ∈ (computeKpis facts).loss_mix_by_site.filter (fun r => r.site_id = s),
        r.disposed_share = 0) := by
  have hfinal : (computeKpis facts).loss_mix_by_site = mkLossMix (addDerivedMetrics facts) := by
    simp only [computeKpis]
  rw [hfinal]
  have hperm := mkLossMix_filter_shares (addDerivedMetrics facts) s
  have hmemS : ∀ m ∈ (mkMixBase (addDerivedMetrics facts)).filter (fun x => x.1 = s),
      m ∈ mkMixBase (addDerivedMetrics facts) ∧ m.1 = s := by
    intro m hm
    have h := List.mem_filter.1 hm
    exact ⟨h.1, by simpa using h.2⟩
  have hshare : ∀ m ∈ (mkMixBase (addDerivedMetrics facts)).filter (fun x => x.1 = s),
      (mergeMixRow (mixTotals (mkMixBase (addDerivedMetrics facts))) m).disposed_share
        = roundTo 4
          (if 0 < (((mkMixBase (addDerivedMetrics facts)).filter (fun x => x.1 = s)).map
                (fun x => x.2.2)).sum
            then (m.2.2 : ℚ) /
              (((((mkMixBase (addDerivedMetrics facts)).filter (fun x => x.1 = s)).map
                (fun x => x.2.2)).sum : ℤ) : ℚ)
            else 0) := by
    intro m hm
    rcases hmemS m hm with ⟨hmem, hms⟩
    have h := mergeMixRow_fields (addDerivedMetrics facts) m hmem
    rw [hms] at h
    exact h
  have hdis : (((mkLossMix (addDerivedMetrics facts)).filter (fun r => r.site_id = s)).map
      (fun r => r.disposed_units)).sum
      = (((mkMixBase (addDerivedMetrics facts)).filter (fun x => x.1 = s)).map
        (fun x => x.2.2)).sum := by
    rw [(hperm.map (fun r => r.disposed_units)).sum_eq, List.map_map]
    congr 1
  have hlen : ((mkLossMix (addDerivedMetrics facts)).filter (fun r => r.site_id = s)).length
      = ((mkMixBase (addDerivedMetrics facts)).filter (fun x => x.1 = s)).length := by
    rw [hperm.length_eq, List.length_map]
  have hsh : (((mkLossMix (addDerivedMetrics facts)).filter (fun r => r.site_id = s)).map
      (fun r => r.disposed_share)).sum
      = (((mkMixBase (addDerivedMetrics facts)).filter (fun x => x.1 = s)).map
        (fun m => roundTo 4
          (if 0 < (((mkMixBase (addDerivedMetrics facts)).filter (fun x => x.1 = s)).map
                (fun x => x.2.2)).sum
            then (m.2.2 : ℚ) /
              (((((mkMixBase (addDerivedMetrics facts)).filter (fun x => x.1 = s)).map
                (fun x => x.2.2)).sum : ℤ) : ℚ)
            else 0))).sum := by
    rw [(hperm.map (fun r => r.disposed_share)).sum_eq, List.map_map]
    congr 1
    exact List.map_congr_left hshare
  constructor
  · intro hTpos
    rw [hdis] at hTpos
    rw [hsh, hlen]
    have hT0 : (((((mkMixBase (addDerivedMetrics facts)).filter (fun x => x.1 = s)).map
        (fun x => x.2.2)).sum : ℤ) : ℚ) ≠ 0 :=
      Int.cast_ne_zero.2 hTpos.ne'
    have hifs : (((mkMixBase (addDerivedMetrics facts)).filter (fun x => x.1 = s)).map
        (fun m => roundTo 4
          (if 0 < (((mkMixBase (addDerivedMetrics facts)).filter (fun x => x.1 = s)).map
                (fun x => x.2.2)).sum
            then (m.2.2 : ℚ) /
              (((((mkMixBase (addDerivedMetrics facts)).filter (fun x => x.1 = s)).map
                (fun x => x.2.2)).sum : ℤ) : ℚ)
            else 0)))
        = (((mkMixBase (addDerivedMetrics facts)).filter (fun x => x.1 = s)).map
            (fun m => (m.2.2 : ℚ) /
              (((((mkMixBase (addDerivedMetrics facts)).filter (fun x => x.1 = s)).map
                (fun x => x.2.2)).sum : ℤ) : ℚ))).map (roundTo 4) := by
      rw [List.map_map]
      apply List.map_congr_left
      intro m _
      simp [if_pos hTpos, Function.comp]
    rw [hifs]
    have hraw : (((mkMixBase (addDerivedMetrics facts)).filter (fun x => x.1 = s)).map
        (fun m => (m.2.2 : ℚ) /
          (((((mkMixBase (addDerivedMetrics facts)).filter (fun x => x.1 = s)).map
            (fun x => x.2.2)).sum : ℤ) : ℚ))).sum = 1 := by
      have hsdc := list_sum_div_cast (fun x : ℕ × ℕ × ℤ => x.2.2)
        ((mkMixBase (addDerivedMetrics facts)).filter (fun x => x.1 = s))
        (((((mkMixBase (addDerivedMetrics facts)).filter (fun x => x.1 = s)).map
          (fun x => x.2.2)).sum : ℤ) : ℚ)
      exact hsdc.trans (div_self hT0)
    calc |((((mkMixBase (addDerivedMetrics facts)).filter (fun x => x.1 = s)).map
            (fun m => (m.2.2 : ℚ) /
              (((((mkMixBase (addDerivedMetrics facts)).filter (fun x => x.1 = s)).map
                (fun x => x.2.2)).sum : ℤ) : ℚ))).map (roundTo 4)).sum - 1|
        = |((((mkMixBase (addDerivedMetrics facts)).filter (fun x => x.1 = s)).map
            (fun m => (m.2.2 : ℚ) /
              (((((mkMixBase (addDerivedMetrics facts)).filter (fun x => x.1 = s)).map
                (fun x => x.2.2)).sum : ℤ) : ℚ))).map (roundTo 4)).sum -
          (((mkMixBase (addDerivedMetrics facts)).filter (fun x => x.1 = s)).map
            (fun m => (m.2.2 : ℚ) /
              (((((mkMixBase (addDerivedMetrics facts)).filter (fun x => x.1 = s)).map
                (fun x => x.2.2)).sum : ℤ) : ℚ))).sum| := by rw [hraw]
      _ ≤ ((((mkMixBase (addDerivedMetrics facts)).filter (fun x => x.1 = s)).map
            (fun m => (m.2.2 : ℚ) /
              (((((mkMixBase (addDerivedMetrics facts)).filter (fun x => x.1 = s)).map
                (fun x => x.2.2)).sum : ℤ) : ℚ))).length : ℚ) / 20000 := sum_roundTo_close _
      _ = (((mkMixBase (addDerivedMetrics facts)).filter (fun x => x.1 = s)).length : ℚ)
          / 20000 := by rw [List.length_map]
  · intro hT0 r hr
    rw [hdis] at hT0
    have hr' : r ∈ ((mkMixBase (addDerivedMetrics facts)).filter (fun x => x.1 = s)).map
        (mergeMixRow (mixTotals (mkMixBase (addDerivedMetrics facts)))) :=
      (hperm.mem_iff).1 hr
    rcases List.mem_map.1 hr' with ⟨m, hm, rfl⟩
    rw [hshare m hm, hT0]
    simp [roundTo_zero]

theorem c8_share_sums_witness :
    |(((computeKpis mixFacts).loss_mix_by_site.filter (fun r => r.site_id = 0)).map
        (fun r => r.disposed_share)).sum - 1| ≤
      (((computeKpis mixFacts).loss_mix_by_site.filter (fun r => r.site_id = 0)).length : ℚ)
        / 20000 ∧
    ∀ r ∈ (computeKpis mixFacts).loss_mix_by_site.filter (fun r => r.site_id = 1),
      r.disposed_share = 0 := by
  constructor
  · refine (c8_share_sums mixFacts 0).1 ?_
    norm_num [computeKpis, addDerivedMetrics, deriveRow, mkLossMix, mergeMixRow, mkMixBase,
      mixTotals, mixOrd, pairKeys, pairLe, natKeys, List.insertionSort, List.orderedInsert,
      mixFacts, roundTo, roundHalfEven]
  · refine (c8_share_sums mixFacts 1).2 ?_
    norm_num [computeKpis, addDerivedMetrics, deriveRow, mkLossMix, mergeMixRow, mkMixBase,
      mixTotals, mixOrd, pairKeys, pairLe, natKeys, List.insertionSort, List.orderedInsert,
      mixFacts, roundTo, roundHalfEven]

/-- C6 amended: compute_kpis on the empty input returns (totally, with no
failure) an overall row with all sum fields zero and all three mean fields
NaN, modelled as none. -/
theorem c6_empty_amended :
    (computeKpis []).overall =
      { planned_units := 0, actual_units := 0, usable_units := 0, disposed_units := 0,
        cost_leakage := 0, avg_unit_cost := none, avg_loss_rate := none,
        avg_utilization_rate := none, shock_days := 0 } := by
  norm_num [computeKpis, mkOverall, addDerivedMetrics, meanQ?, roundTo_zero]

end Dashboard
